import Mathlib

/-!
# Verification of the NYC collision feature-engineering pipeline

Shallow embedding of the feature-engineering, borough-assignment and
input-alignment code of the repository (`feature_engineering.py`,
`database_integration.py`, `app.py`), together with proofs of the
specified properties.

Conventions:
* pandas missing values (NaN produced by `.map` on an unmapped key) are
  embedded as `Option.none`;
* floating-point coordinates and scores are embedded as rationals `ℚ`;
* a dataframe is a `List` of records, in row order;
* external library calls (sklearn DBSCAN / resample, pandas datetime)
  are embedded either as explicit parameters constrained by their
  documented contracts, or as executable Lean functions implementing the
  documented semantics.
-/

namespace Collision

/-! ## Severity score and category (`feature_engineering.py`, §2) -/

/-- The eight per-record death/injury count columns.  Embedded as `ℤ`
so that non-negativity is a hypothesis, not a typing artifact. -/
structure CollisionCounts where
  persons_killed : ℤ
  pedestrians_killed : ℤ
  cyclist_killed : ℤ
  motorist_killed : ℤ
  persons_injured : ℤ
  pedestrians_injured : ℤ
  cyclist_injured : ℤ
  motorist_injured : ℤ

/-- Embeds `df['total_deaths']`: row sum of the four killed columns. -/
def total_deaths (r : CollisionCounts) : ℤ :=
  r.persons_killed + r.pedestrians_killed + r.cyclist_killed + r.motorist_killed

/-- Embeds `df['total_injuries']`: row sum of the four injured columns. -/
def total_injuries (r : CollisionCounts) : ℤ :=
  r.persons_injured + r.pedestrians_injured + r.cyclist_injured + r.motorist_injured

/-- Embeds `df['severity_score'] = df['total_deaths'] * 5 + df['total_injuries']`. -/
def severity_score (r : CollisionCounts) : ℤ :=
  total_deaths r * 5 + total_injuries r

/-- Embeds `aggregate_severity` from `feature_engineering.py`. -/
def aggregate_severity (score : ℤ) : String :=
  if score ≤ 4 then "Low"
  else if score ≤ 10 then "Medium"
  else "High"

/-! ## Contributing-factor and vehicle-type categorisation -/

/-- Embeds `factor_mapping` from `feature_engineering.py`, in source order. -/
def factor_mapping : List (String × String) :=
  [("Driver Inattention/Distraction", "Human Error"),
   ("Driver Inexperience", "Human Error"),
   ("Following Too Closely", "Human Error"),
   ("Unsafe Speed", "Human Error"),
   ("Failure to Yield Right-of-Way", "Human Error"),
   ("Aggressive Driving/Road Rage", "Human Error"),
   ("Backing Unsafely", "Human Error"),
   ("Fell Asleep", "Human Error"),
   ("Fatigued/Drowsy", "Human Error"),
   ("Lost Consciousness", "Human Error"),
   ("Alcohol Involvement", "Human Error"),
   ("Drugs (Illegal)", "Human Error"),
   ("Prescription Medication", "Human Error"),
   ("Pavement Slippery", "Environmental Factors"),
   ("Obstruction/Debris", "Environmental Factors"),
   ("View Obstructed/Limited", "Environmental Factors"),
   ("Glare", "Environmental Factors"),
   ("Outside Car Distraction", "Environmental Factors"),
   ("Animals Action", "Environmental Factors"),
   ("Pavement Defective", "Environmental Factors"),
   ("Brakes Defective", "Mechanical/Vehicle Issues"),
   ("Steering Failure", "Mechanical/Vehicle Issues"),
   ("Tire Failure/Inadequate", "Mechanical/Vehicle Issues"),
   ("Accelerator Defective", "Mechanical/Vehicle Issues"),
   ("Headlights Defective", "Mechanical/Vehicle Issues"),
   ("Oversized Vehicle", "Mechanical/Vehicle Issues"),
   ("Other Lighting Defects", "Mechanical/Vehicle Issues"),
   ("Windshield Inadequate", "Mechanical/Vehicle Issues"),
   ("Tow Hitch Defective", "Mechanical/Vehicle Issues"),
   ("Vehicle Vandalism", "Mechanical/Vehicle Issues"),
   ("Physical Disability", "Mechanical/Vehicle Issues"),
   ("Traffic Control Disregarded", "Traffic/Regulatory Issues"),
   ("Traffic Control Device Improper/Non-Working", "Traffic/Regulatory Issues"),
   ("Lane Marking Improper/Inadequate", "Traffic/Regulatory Issues"),
   ("Pedestrian/Bicyclist/Other Pedestrian Error/Confusion", "Pedestrian/Cyclist Issues"),
   ("Unspecified", "Unknown/Other"),
   ("Unknown", "Unknown/Other"),
   ("Other Vehicular", "Unknown/Other"),
   ("Other Electronic Device", "Unknown/Other"),
   ("Cell Phone (hands-free)", "Distracted/Occupied"),
   ("Cell Phone (hand-held)", "Distracted/Occupied"),
   ("Using On Board Navigation Device", "Distracted/Occupied"),
   ("Eating or Drinking", "Distracted/Occupied"),
   ("Listening/Using Headphones", "Distracted/Occupied"),
   ("Texting", "Distracted/Occupied")]

/-- Embeds `df['contributing_factor_vehicle_1'].map(factor_mapping)`: a pandas
`Series.map` with a dict, which yields NaN (here `none`) on a key absent
from the dict.  The source applies no case normalisation and no fillna
to this column. -/
def contributing_factor_category (s : String) : Option String :=
  (factor_mapping.find? (fun p => p.1 = s)).map (fun p => p.2)

/-- Embeds `vehicle_mapping` from `feature_engineering.py`, in source order. -/
def vehicle_mapping : List (String × String) :=
  [("sedan", "Passenger Vehicle"),
   ("station wagon/sport utility vehicle", "Passenger Vehicle"),
   ("passenger vehicle", "Passenger Vehicle"),
   ("sport utility / station wagon", "Passenger Vehicle"),
   ("taxi", "Taxi"),
   ("pick-up truck", "Truck"),
   ("4 dr sedan", "Passenger Vehicle"),
   ("box truck", "Truck"),
   ("van", "Van"),
   ("bus", "Bus"),
   ("bike", "Bike")]

/-- Python `str.lower()` on the ASCII strings of this dataset: a
per-character lowercase map. -/
def strLower (s : String) : String := String.mk (s.data.map Char.toLower)

/-- The vehicle-type pipeline of the source: `.str.lower()`, then
`.map(vehicle_mapping)`, then `fillna({'vehicle_category': 'Unknown'})`. -/
def vehicle_category (s : String) : String :=
  ((vehicle_mapping.find? (fun p => p.1 = strLower s)).map (fun p => p.2)).getD "Unknown"

/-! ## Temporal features -/

/-- A parsed timestamp, as produced by `pd.to_datetime` on the combined
`crash_datetime` column (calendar fields of a Gregorian date-time). -/
structure PTimestamp where
  year : ℕ
  month : ℕ
  day : ℕ
  hour : ℕ
  minute : ℕ

/-- The field ranges `pd.to_datetime` guarantees for a successfully
parsed timestamp. -/
def ValidTimestamp (t : PTimestamp) : Prop :=
  1 ≤ t.year ∧ 1 ≤ t.month ∧ t.month ≤ 12 ∧ 1 ≤ t.day ∧ t.day ≤ 31 ∧
    t.hour ≤ 23 ∧ t.minute ≤ 59

instance (t : PTimestamp) : Decidable (ValidTimestamp t) := by
  unfold ValidTimestamp; infer_instance

/-- Weekday names as returned by `Series.dt.day_name()`, indexed with
0 = Sunday. -/
def dayNames : List String :=
  ["Sunday", "Monday", "Tuesday", "Wednesday", "Thursday", "Friday", "Saturday"]

/-- Month-offset table of Sakamoto's weekday algorithm. -/
def sakamotoTable : List ℕ := [0, 3, 2, 5, 0, 3, 5, 1, 4, 6, 2, 4]

/-- Sakamoto's year adjustment: January and February count as months
13 and 14 of the previous year. -/
def sakamotoYear (t : PTimestamp) : ℕ :=
  if t.month < 3 then t.year - 1 else t.year

/-- Embeds `df['day_of_week'] = pd.to_datetime(...).dt.day_name()`: the Gregorian
weekday of the parsed date, computed by Sakamoto's algorithm (the
executable semantics of the pandas call). -/
def day_name (t : PTimestamp) : String :=
  dayNames.getD ((sakamotoYear t + sakamotoYear t / 4 - sakamotoYear t / 100 +
      sakamotoYear t / 400 + sakamotoTable.getD (t.month - 1) 0 + t.day) % 7) ""

/-- Embeds `pd.cut(hour, bins=[0,6,12,18,24], right=False)`: right-open buckets
`[0,6) [6,12) [12,18) [18,24)`; an hour outside every bin becomes NaN
(`none`). -/
def time_of_day (h : ℕ) : Option String :=
  if h < 6 then some "Night"
  else if h < 12 then some "Morning"
  else if h < 18 then some "Afternoon"
  else if h < 24 then some "Evening"
  else none

/-! ## Location grid and crash rate -/

/-- A record at the point where the location features are derived:
coordinates and the already-computed severity score. -/
structure GeoRecord where
  latitude : ℚ
  longitude : ℚ
  severity : ℚ

/-- Round a rational to the nearest integer, ties to even — the rounding
mode of `Series.round` (IEEE/numpy half-even). -/
def roundHalfEven (x : ℚ) : ℤ :=
  let n := ⌊x⌋
  let r := x - (n : ℚ)
  if r < 1 / 2 then n
  else if 1 / 2 < r then n + 1
  else if Even n then n else n + 1

/-- Embeds `df['latitude'].round(3)`: round to 3 decimal places. -/
def round3 (x : ℚ) : ℚ := (roundHalfEven (x * 1000) : ℚ) / 1000

/-- Embeds `df['location_grid']`: the grid key built from the two rounded
coordinates.  The source concatenates them into the string
`f"{lat_rounded}, {lon_rounded}"`; distinct rounded pairs print to
distinct strings, so the key is embedded as the pair itself. -/
def location_grid (r : GeoRecord) : ℚ × ℚ := (round3 r.latitude, round3 r.longitude)

/-- The group of rows of `df` sharing grid key `k`. -/
def gridGroup (df : List GeoRecord) (k : ℚ × ℚ) : List GeoRecord :=
  df.filter (fun r => location_grid r = k)

/-- Mean `severity_score` of one grid group (`groupby('location_grid')
['severity_score'].mean()` for key `k`). -/
def groupMean (df : List GeoRecord) (k : ℚ × ℚ) : ℚ :=
  ((gridGroup df k).map (fun r => r.severity)).sum / ((gridGroup df k).length : ℚ)

/-- The distinct grid keys of `df`, in first-occurrence order — the
groups formed by `groupby('location_grid')`. -/
def gridKeys (df : List GeoRecord) : List (ℚ × ℚ) :=
  (df.map location_grid).dedup

/-- The per-group aggregation pass: one `(key, mean)` row per group. -/
def meanTable (df : List GeoRecord) : List ((ℚ × ℚ) × ℚ) :=
  (gridKeys df).map (fun k => (k, groupMean df k))

/-- Embeds `df.groupby('location_grid')['severity_score'].transform('mean')`:
the group means broadcast back to every row, in row order. -/
def crash_rate_column (df : List GeoRecord) : List ℚ :=
  df.map (fun r => (((meanTable df).find? (fun p => p.1 = location_grid r)).map
    (fun p => p.2)).getD 0)

/-! ## Chunked clustering (`cluster_in_chunks`) -/

/-- The loop of `cluster_in_chunks`, started at index `start`:
`for start in range(0, n, chunk_size)` with
`chunk = dataframe.iloc[start:start+chunk_size]`, extending the label
list with `dbscan.labels_` of each chunk.  The parameter `dbscan`
abstracts the per-chunk library call
`DBSCAN(eps, min_samples, metric='haversine').fit(np.radians(coords)).labels_`,
a deterministic function of the chunk's coordinate list.  A zero step
raises in the source; it is mapped to `[]` here and every theorem
assumes a positive chunk size. -/
def clusterChunksFrom (dbscan : List (ℚ × ℚ) → List ℤ) (rows : List (ℚ × ℚ))
    (chunkSize start : ℕ) : List ℤ :=
  if _h : chunkSize = 0 ∨ rows.length ≤ start then []
  else
    dbscan ((rows.drop start).take chunkSize) ++
      clusterChunksFrom dbscan rows chunkSize (start + chunkSize)
termination_by rows.length - start
decreasing_by
  push_neg at _h
  omega

/-- Embeds `cluster_in_chunks(dataframe, chunk_size, ...)` from
`feature_engineering.py`, with the per-chunk clustering call abstracted
as `dbscan` and the dataframe reduced to its coordinate rows. -/
def cluster_in_chunks (dbscan : List (ℚ × ℚ) → List ℤ) (rows : List (ℚ × ℚ))
    (chunkSize : ℕ) : List ℤ :=
  clusterChunksFrom dbscan rows chunkSize 0

/-- Written from the spec's words: partition a sequence into fixed-size
contiguous chunks (the last one possibly shorter). -/
def chunksOf {α : Type} (chunkSize : ℕ) (l : List α) : List (List α) :=
  if _h : chunkSize = 0 ∨ l.length = 0 then []
  else l.take chunkSize :: chunksOf chunkSize (l.drop chunkSize)
termination_by l.length
decreasing_by
  push_neg at _h
  simp only [List.length_drop]
  omega

/-! ## Class-imbalance correction -/

/-- The balancing block of `feature_engineering.py`:
`majority_class = df[df['severity_category'] == 'Low']`,
`minority_classes = df[df['severity_category'] != 'Low']`,
`majority_downsampled = resample(majority_class, replace=False,
n_samples=len(minority_classes), random_state=42)`,
`df_balanced = pd.concat([majority_downsampled, minority_classes])`.
The library call `resample` is abstracted as `sample`, constrained in
the theorems by its documented contract (a without-replacement sample
of the requested size, deterministic for the fixed seed). -/
def df_balanced {α : Type} (sev : α → String) (sample : List α → ℕ → List α)
    (df : List α) : List α :=
  sample (df.filter (fun r => sev r = "Low"))
      ((df.filter (fun r => ¬ sev r = "Low")).length) ++
    df.filter (fun r => ¬ sev r = "Low")

/-! ## Borough assignment (`database_integration.py`) -/

/-- One named bounding box of `borough_ranges`. -/
structure BoroughBox where
  name : String
  lat_min : ℚ
  lat_max : ℚ
  lon_min : ℚ
  lon_max : ℚ

/-- Embeds `borough_ranges` from `database_integration.py`, in the dict's
insertion order (the iteration order of `get_borough`). -/
def borough_ranges : List BoroughBox :=
  [⟨"Manhattan", 40.700, 40.882, -74.019, -73.907⟩,
   ⟨"Brooklyn", 40.570, 40.739, -74.041, -73.855⟩,
   ⟨"Queens", 40.541, 40.800, -73.962, -73.700⟩,
   ⟨"Bronx", 40.785, 40.910, -73.933, -73.765⟩,
   ⟨"Staten Island", 40.477, 40.648, -74.255, -74.051⟩]

/-- The containment test of `get_borough`:
`lat_min <= lat <= lat_max and lon_min <= lon <= lon_max`. -/
def inBounds (lat lon : ℚ) (b : BoroughBox) : Bool :=
  decide (b.lat_min ≤ lat ∧ lat ≤ b.lat_max ∧ b.lon_min ≤ lon ∧ lon ≤ b.lon_max)

/-- The loop body of `get_borough`: scan the boxes in order, return the
first one containing the point. -/
def get_borough_aux (lat lon : ℚ) : List BoroughBox → String
  | [] => "Unknown"
  | b :: rest => if inBounds lat lon b then b.name else get_borough_aux lat lon rest

/-- Embeds `get_borough(lat, lon)` from `database_integration.py`. -/
def get_borough (lat lon : ℚ) : String := get_borough_aux lat lon borough_ranges

/-! ## Feature alignment (`create_aligned_input` in `app.py`)

The input row is a one-row dataframe after `astype(str)`: an association
list from column name to stringified value.  The aligned output is one
rational value per entry of `feature_names`, in order.  An uncaught
Python exception (a malformed `cat__` feature name failing the two-way
unpack, or `float()` on an unparseable string) is embedded as `none`
for the whole call; a caught `KeyError` (missing input column) leaves
the zero-initialised cell, as in the source. -/

/-- Column lookup in the one-row dataframe; `none` is a `KeyError`. -/
def pyLookup (row : List (String × String)) (c : String) : Option String :=
  (row.find? (fun p => p.1 = c)).map (fun p => p.2)

/-- Python `s.split(sep)` for a single-character separator, over the
character list of the string. -/
def pySplitChar (sep : Char) : List Char → List (List Char)
  | [] => [[]]
  | c :: rest =>
      match pySplitChar sep rest with
      | [] => if c = sep then [[], []] else [[c]]
      | seg :: segs => if c = sep then [] :: seg :: segs else (c :: seg) :: segs

/-- Python `s.split("__")`: greedy left-to-right split on the
two-character separator, over the character list of the string. -/
def pySplitUU : List Char → List (List Char)
  | [] => [[]]
  | '_' :: '_' :: rest => [] :: pySplitUU rest
  | c :: rest =>
      match pySplitUU rest with
      | [] => [[c]]
      | seg :: segs => (c :: seg) :: segs

/-- Digits of a numeral; `none` if empty or non-digit. -/
def digitsToNat (l : List Char) : Option ℕ :=
  if l = [] ∨ ¬ l.all (fun c => decide ('0' ≤ c ∧ c ≤ '9')) then none
  else some (l.foldl (fun acc c => 10 * acc + (c.toNat - 48)) 0)

/-- Python `float(s)` on a plain decimal numeral (optional sign, integer
part, optional fractional part), as produced by `str()` on a number;
`none` embeds the `ValueError` of any other shape.  Exponent and
inf/nan forms never arise here and are not modelled. -/
def parseFloat (s : String) : Option ℚ :=
  let body : List Char := if s.data.head? = some '-' then s.data.tail else s.data
  let sign : ℚ := if s.data.head? = some '-' then -1 else 1
  match pySplitChar '.' body with
  | [intPart] => (digitsToNat intPart).map (fun n => sign * (n : ℚ))
  | [intPart, fracPart] =>
      match digitsToNat intPart, digitsToNat fracPart with
      | some n, some f =>
          some (sign * ((n : ℚ) + (f : ℚ) / ((10 : ℚ) ^ fracPart.length)))
      | _, _ => none
  | _ => none

/-- Python `rest.rsplit("_", 1)[0]`: everything before the last
underscore, or the whole string if it has none. -/
def beforeLastUnderscore (s : List Char) : String :=
  match pySplitChar '_' s with
  | [] => String.mk s
  | [_] => String.mk s
  | parts => String.mk ((parts.dropLast.intersperse ['_']).flatten)

/-- Python `s.rsplit("_")[-1]`: everything after the last underscore,
or the whole string if it has none. -/
def afterLastUnderscore (s : List Char) : String :=
  String.mk ((pySplitChar '_' s).getLastD [])

/-- The value `create_aligned_input` leaves in the cell of feature `f`,
given the (stringified) input row.  Mirrors the two loops of the
source: the `num__` loop copies `float(input_data[name].values[0])`
where `name = f.split("__")[1]`, keeping 0 on `KeyError`; the `cat__`
loop writes 1 exactly when the base column's value equals the feature's
last underscore-segment; every other cell keeps its zero initialiser. -/
def alignedValue (row : List (String × String)) (f : String) : Option ℚ :=
  if "num__".data.isPrefixOf f.data then
    match pyLookup row (String.mk ((pySplitUU f.data).getD 1 [])) with
    | none => some 0
    | some v => parseFloat v
  else if "cat__".data.isPrefixOf f.data then
    match pySplitUU f.data with
    | [_, rest] =>
        match pyLookup row (beforeLastUnderscore rest) with
        | some v => some (if v = afterLastUnderscore f.data then 1 else 0)
        | none => some 0
    | _ => none
  else some 0

/-- Embeds `create_aligned_input(input_data, feature_names)` from `app.py`. -/
def create_aligned_input (row : List (String × String))
    (featureNames : List String) : Option (List (String × ℚ)) :=
  featureNames.mapM (fun f => (alignedValue row f).map (fun v => (f, v)))

/-! ## Helper lemmas -/

/-- Scanning the boxes in order returns the name of the first hit,
`"Unknown"` when there is none. -/
lemma get_borough_aux_eq_find (lat lon : ℚ) (l : List BoroughBox) :
    get_borough_aux lat lon l =
      ((l.find? (inBounds lat lon)).map BoroughBox.name).getD "Unknown" := by
  induction l with
  | nil => rfl
  | cons b rest ih =>
      by_cases hb : inBounds lat lon b
      · simp [get_borough_aux, List.find?_cons, hb]
      · simp [get_borough_aux, List.find?_cons, hb, ih]

/-- Looking a key up in a table of `(key, value-of-key)` rows yields its
value, provided the key occurs. -/
lemma find_map_self {K V : Type} [DecidableEq K] (keys : List K) (g : K → V) (k : K)
    (hk : k ∈ keys) :
    ((keys.map (fun x => (x, g x))).find? (fun p => p.1 = k)).map (fun p => p.2)
      = some (g k) := by
  induction keys with
  | nil => cases hk
  | cons a rest ih =>
      by_cases ha : a = k
      · subst ha
        simp [List.find?_cons]
      · rcases List.mem_cons.1 hk with h | h
        · exact absurd h.symm ha
        · simp only [List.map_cons, List.find?_cons]
          have : (decide ((a, g a).1 = k)) = false := by simpa using ha
          rw [this]
          exact ih h

/-- The chunking loop started at `start` processes exactly the chunks of
the remaining suffix, in order. -/
lemma clusterChunksFrom_eq_join (dbscan : List (ℚ × ℚ) → List ℤ) (c : ℕ) (hc : 0 < c) :
    ∀ n rows start, rows.length - start ≤ n →
      clusterChunksFrom dbscan rows c start =
        ((chunksOf c (rows.drop start)).map dbscan).flatten := by
  intro n
  induction n with
  | zero =>
      intro rows start hn
      have hle : rows.length ≤ start := by omega
      rw [clusterChunksFrom]
      simp [hle, chunksOf, List.drop_eq_nil_of_le hle]
  | succ n ih =>
      intro rows start hn
      rw [clusterChunksFrom]
      by_cases hle : rows.length ≤ start
      · simp [hle, chunksOf, List.drop_eq_nil_of_le hle]
      · have hc0 : ¬ (c = 0 ∨ rows.length ≤ start) := by omega
        rw [dif_neg hc0]
        rw [chunksOf]
        have hne : ¬ (c = 0 ∨ (rows.drop start).length = 0) := by
          simp only [List.length_drop]
          omega
        rw [dif_neg hne]
        simp only [List.map_cons, List.flatten_cons]
        rw [ih rows (start + c) (by omega)]
        rw [List.drop_drop]

/-- Concatenating the chunks of a list gives the list back. -/
lemma chunksOf_join {α : Type} (c : ℕ) (hc : 0 < c) :
    ∀ n (l : List α), l.length ≤ n → (chunksOf c l).flatten = l := by
  intro n
  induction n with
  | zero =>
      intro l hn
      have : l = [] := List.length_eq_zero.1 (by omega)
      subst this
      rw [chunksOf]
      simp
  | succ n ih =>
      intro l hn
      rw [chunksOf]
      by_cases h0 : l.length = 0
      · have : l = [] := List.length_eq_zero.1 h0
        subst this
        simp
      · have hne : ¬ (c = 0 ∨ l.length = 0) := by omega
        rw [dif_neg hne]
        simp only [List.flatten_cons]
        rw [ih (l.drop c) (by simp only [List.length_drop]; omega)]
        exact List.take_append_drop c l

/-- A per-chunk labeller that returns one label per sample preserves the
total length through map-and-concatenate. -/
lemma join_map_length (dbscan : List (ℚ × ℚ) → List ℤ)
    (hlen : ∀ chunk, (dbscan chunk).length = chunk.length) :
    ∀ L : List (List (ℚ × ℚ)), ((L.map dbscan).flatten).length = L.flatten.length := by
  intro L
  induction L with
  | nil => rfl
  | cons a rest ih => simp [List.flatten, hlen, ih]

/-- The broadcast column is the per-row group mean. -/
lemma crash_rate_column_eq (df : List GeoRecord) :
    crash_rate_column df = df.map (fun r => groupMean df (location_grid r)) := by
  unfold crash_rate_column
  apply List.map_congr_left
  intro r hr
  have hk : location_grid r ∈ gridKeys df :=
    List.mem_dedup.2 (List.mem_map_of_mem location_grid hr)
  rw [meanTable, find_map_self (gridKeys df) (groupMean df) (location_grid r) hk]
  rfl

/-! ## C1: severity category thresholds -/

/-- C1: `severity_category` is a deterministic total function of
`severity_score` with non-overlapping thresholds: score ≤ 4 ↦ Low,
4 < score ≤ 10 ↦ Medium, score > 10 ↦ High; in particular 4 ↦ Low,
5 ↦ Medium, 10 ↦ Medium, 11 ↦ High. -/
theorem severity_category_thresholds :
    (∀ s : ℤ,
      (s ≤ 4 → aggregate_severity s = "Low") ∧
      (4 < s → s ≤ 10 → aggregate_severity s = "Medium") ∧
      (10 < s → aggregate_severity s = "High")) ∧
    aggregate_severity 4 = "Low" ∧ aggregate_severity 5 = "Medium" ∧
    aggregate_severity 10 = "Medium" ∧ aggregate_severity 11 = "High" := by
  refine ⟨fun s => ⟨?_, ?_, ?_⟩, by decide, by decide, by decide, by decide⟩ <;>
    · intros
      unfold aggregate_severity
      split_ifs <;> first | rfl | omega

/-- Witness for C1 at the boundary scores. -/
theorem severity_category_thresholds_witness :
    aggregate_severity 4 = "Low" ∧ aggregate_severity 5 = "Medium" ∧
    aggregate_severity 11 = "High" :=
  ⟨(severity_category_thresholds.1 4).1 (by norm_num),
   (severity_category_thresholds.1 5).2.1 (by norm_num) (by norm_num),
   (severity_category_thresholds.1 11).2.2 (by norm_num)⟩

/-! ## C2: severity score formula -/

/-- C2: for non-negative count fields, `severity_score` is 5 times the
sum of the four death fields plus the sum of the four injury fields and
is never negative; the row with 1 pedestrian killed and 2 motorists
injured scores 7 and is categorised Medium. -/
theorem severity_score_formula :
    (∀ r : CollisionCounts,
      0 ≤ r.persons_killed ∧ 0 ≤ r.pedestrians_killed ∧ 0 ≤ r.cyclist_killed ∧
        0 ≤ r.motorist_killed ∧ 0 ≤ r.persons_injured ∧ 0 ≤ r.pedestrians_injured ∧
        0 ≤ r.cyclist_injured ∧ 0 ≤ r.motorist_injured →
      severity_score r =
          5 * (r.persons_killed + r.pedestrians_killed + r.cyclist_killed +
               r.motorist_killed) +
            (r.persons_injured + r.pedestrians_injured + r.cyclist_injured +
             r.motorist_injured) ∧
        0 ≤ severity_score r) ∧
    severity_score ⟨0, 1, 0, 0, 0, 0, 0, 2⟩ = 7 ∧
    aggregate_severity (severity_score ⟨0, 1, 0, 0, 0, 0, 0, 2⟩) = "Medium" := by
  refine ⟨fun r hr => ⟨?_, ?_⟩, by decide, by decide⟩
  · unfold severity_score total_deaths total_injuries
    ring
  · unfold severity_score total_deaths total_injuries
    omega

/-- Witness for C2: the end-to-end scenario row. -/
theorem severity_score_formula_witness :
    severity_score ⟨0, 1, 0, 0, 0, 0, 0, 2⟩ = 5 * (0 + 1 + 0 + 0) + (0 + 0 + 0 + 2) ∧
      0 ≤ severity_score ⟨0, 1, 0, 0, 0, 0, 0, 2⟩ :=
  severity_score_formula.1 ⟨0, 1, 0, 0, 0, 0, 0, 2⟩ (by norm_num)

/-! ## C3: category lookups (corrected) -/

/-- C3 counterexample: the claim says input strings are case-normalised
before the contributing-factor lookup and that every unmapped string
falls back to "Unknown/Other".  On the input "UNSPECIFIED" (an
upper-cased variant of the mapped key "Unspecified") the code performs
no case normalisation and no fallback: the pandas `.map` leaves NaN
(`none`), not "Unknown/Other". -/
theorem category_lookup_counterexample :
    contributing_factor_category "UNSPECIFIED" = none ∧
      ¬ contributing_factor_category "UNSPECIFIED" = some "Unknown/Other" := by
  refine ⟨rfl, fun h => ?_⟩
  rw [show contributing_factor_category "UNSPECIFIED" = none from rfl] at h
  exact Option.noConfusion h

/-- C3 amended: vehicle-type strings are lower-cased before lookup (the
lookup is case-insensitive) and unmapped vehicle-type strings yield
"Unknown"; contributing-factor strings are looked up raw, with no case
normalisation, and a string absent from the factor table yields a
missing value (NaN), not "Unknown/Other". -/
theorem category_lookup_amended :
    ∀ s t : String,
      ((∀ p ∈ factor_mapping, ¬ p.1 = s) → contributing_factor_category s = none) ∧
      ((∀ p ∈ vehicle_mapping, ¬ p.1 = strLower s) → vehicle_category s = "Unknown") ∧
      (strLower s = strLower t → vehicle_category s = vehicle_category t) := by
  intro s t
  refine ⟨fun h => ?_, fun h => ?_, fun h => ?_⟩
  · unfold contributing_factor_category
    rw [List.find?_eq_none.2 (fun p hp => by simpa using h p hp)]
    rfl
  · unfold vehicle_category
    rw [List.find?_eq_none.2 (fun p hp => by simpa using h p hp)]
    rfl
  · unfold vehicle_category
    rw [h]

/-- Witness for C3 amended: "Hovercraft" is in neither table; the
vehicle lookup treats it and its upper-cased form alike. -/
theorem category_lookup_amended_witness :
    contributing_factor_category "Hovercraft" = none ∧
      vehicle_category "Hovercraft" = "Unknown" ∧
      vehicle_category "Hovercraft" = vehicle_category "HOVERCRAFT" :=
  ⟨(category_lookup_amended "Hovercraft" "HOVERCRAFT").1 (by decide),
   (category_lookup_amended "Hovercraft" "HOVERCRAFT").2.1 (by decide),
   (category_lookup_amended "Hovercraft" "HOVERCRAFT").2.2 (by decide)⟩

/-! ## C4: chunked clustering refinement -/

/-- C4: for every per-chunk clustering function, every dataset and every
positive chunk size, the chunked procedure returns exactly the
concatenation, in original order, of the label lists obtained by
clustering each fixed-size contiguous chunk on its own; each chunk's
labels depend on that chunk alone, so labels are chunk-local. -/
theorem cluster_in_chunks_refines :
    ∀ (dbscan : List (ℚ × ℚ) → List ℤ) (rows : List (ℚ × ℚ)) (chunkSize : ℕ),
      0 < chunkSize →
      cluster_in_chunks dbscan rows chunkSize =
        ((chunksOf chunkSize rows).map dbscan).flatten := by
  intro dbscan rows chunkSize hc
  unfold cluster_in_chunks
  rw [clusterChunksFrom_eq_join dbscan chunkSize hc rows.length rows 0 (by omega)]
  rw [List.drop_zero]

/-- Witness for C4: a concrete 5-row dataset split into chunks of 2
under a concrete per-chunk labeller. -/
theorem cluster_in_chunks_refines_witness :
    cluster_in_chunks (fun l => l.map (fun _ => (-1 : ℤ)))
        [(1, 1), (2, 2), (3, 3), (4, 4), (5, 5)] 2 =
      ((chunksOf 2 [((1 : ℚ), (1 : ℚ)), (2, 2), (3, 3), (4, 4), (5, 5)]).map
        (fun l => l.map (fun _ => (-1 : ℤ)))).flatten :=
  cluster_in_chunks_refines (fun l => l.map (fun _ => (-1 : ℤ)))
    [(1, 1), (2, 2), (3, 3), (4, 4), (5, 5)] 2 (by norm_num)

/-! ## C10: one label per row -/

/-- C10: for every dataset, every positive chunk size and every
per-chunk clusterer returning one label per sample, `cluster_in_chunks`
returns exactly one label per input row — the trailing partial chunk
included — so the label list has the length of the dataframe. -/
theorem cluster_in_chunks_length :
    ∀ (dbscan : List (ℚ × ℚ) → List ℤ) (rows : List (ℚ × ℚ)) (chunkSize : ℕ),
      0 < chunkSize →
      (∀ chunk, (dbscan chunk).length = chunk.length) →
      (cluster_in_chunks dbscan rows chunkSize).length = rows.length := by
  intro dbscan rows chunkSize hc hlen
  unfold cluster_in_chunks
  rw [clusterChunksFrom_eq_join dbscan chunkSize hc rows.length rows 0 (by omega)]
  rw [List.drop_zero]
  rw [join_map_length dbscan hlen (chunksOf chunkSize rows)]
  rw [chunksOf_join chunkSize hc rows.length rows (le_refl _)]

/-- Witness for C10: 5 rows, chunk size 2 — the trailing chunk of one
row is clustered too, giving 5 labels. -/
theorem cluster_in_chunks_length_witness :
    (cluster_in_chunks (fun l => l.map (fun _ => (-1 : ℤ)))
        [(1, 1), (2, 2), (3, 3), (4, 4), (5, 5)] 2).length = 5 :=
  cluster_in_chunks_length (fun l => l.map (fun _ => (-1 : ℤ)))
    [(1, 1), (2, 2), (3, 3), (4, 4), (5, 5)] 2 (by norm_num)
    (fun chunk => by simp)

/-! ## C5: class-imbalance downsampling -/

/-- C5: when the "Low" class is at least as large as the rest combined
and the sampler honours the `resample(replace=False, n_samples=n)`
contract (a without-replacement sub-multiset of the requested size),
the balanced output contains exactly as many "Low" records as the
pre-balance count of all non-"Low" records, and the non-"Low" records
are carried into the output unchanged. -/
theorem df_balanced_downsample {α : Type} (sev : α → String)
    (sample : List α → ℕ → List α) (df : List α)
    (hsample : ∀ l n, n ≤ l.length → (sample l n).length = n ∧ (sample l n).Subperm l)
    (hmaj : (df.filter (fun r => ¬ sev r = "Low")).length ≤
      (df.filter (fun r => sev r = "Low")).length) :
    ((df_balanced sev sample df).filter (fun r => sev r = "Low")).length =
        (df.filter (fun r => ¬ sev r = "Low")).length ∧
      (df_balanced sev sample df).filter (fun r => ¬ sev r = "Low") =
        df.filter (fun r => ¬ sev r = "Low") := by
  obtain ⟨hlen, hsub⟩ :=
    hsample (df.filter (fun r => sev r = "Low"))
      ((df.filter (fun r => ¬ sev r = "Low")).length) hmaj
  have hmemLow : ∀ x ∈ sample (df.filter (fun r => sev r = "Low"))
      ((df.filter (fun r => ¬ sev r = "Low")).length), sev x = "Low" := by
    intro x hx
    have hx2 := hsub.subset hx
    simp only [List.mem_filter, decide_eq_true_eq] at hx2
    exact hx2.2
  have hf1 : (sample (df.filter (fun r => sev r = "Low"))
      ((df.filter (fun r => ¬ sev r = "Low")).length)).filter
        (fun r => sev r = "Low") =
      sample (df.filter (fun r => sev r = "Low"))
        ((df.filter (fun r => ¬ sev r = "Low")).length) := by
    rw [List.filter_eq_self]
    intro x hx
    simp [hmemLow x hx]
  have hf2 : (sample (df.filter (fun r => sev r = "Low"))
      ((df.filter (fun r => ¬ sev r = "Low")).length)).filter
        (fun r => ¬ sev r = "Low") = [] := by
    rw [List.filter_eq_nil_iff]
    intro x hx
    simp [hmemLow x hx]
  have hf3 : (df.filter (fun r => ¬ sev r = "Low")).filter
      (fun r => sev r = "Low") = [] := by
    rw [List.filter_eq_nil_iff]
    intro x hx
    simp only [List.mem_filter, decide_eq_true_eq] at hx
    simp [hx.2]
  have hf4 : (df.filter (fun r => ¬ sev r = "Low")).filter
      (fun r => ¬ sev r = "Low") = df.filter (fun r => ¬ sev r = "Low") := by
    rw [List.filter_eq_self]
    intro x hx
    simp only [List.mem_filter] at hx
    exact hx.2
  constructor
  · unfold df_balanced
    rw [List.filter_append, hf1, hf3, List.length_append, hlen]
    simp
  · unfold df_balanced
    rw [List.filter_append, hf2, hf4, List.nil_append]

/-- Witness for C5: three records, two "Low", one "Medium", sampled by
taking a prefix. -/
theorem df_balanced_downsample_witness :
    ((df_balanced (fun s => s) (fun l n => l.take n)
        ["Low", "Low", "Medium"]).filter (fun r => r = "Low")).length =
        ((["Low", "Low", "Medium"] : List String).filter
          (fun r => ¬ r = "Low")).length ∧
      (df_balanced (fun s => s) (fun l n => l.take n)
          ["Low", "Low", "Medium"]).filter (fun r => ¬ r = "Low") =
        (["Low", "Low", "Medium"] : List String).filter (fun r => ¬ r = "Low") :=
  df_balanced_downsample (fun s => s) (fun l n => l.take n) ["Low", "Low", "Medium"]
    (fun l n hn => ⟨by simpa using hn, (List.take_sublist n l).subperm⟩)
    (by decide)

/-! ## C6: borough assignment -/

/-- C6: borough assignment is total and deterministic — every point gets
exactly one of the five named boroughs or "Unknown", the point is tested
against the fixed ordered box list with the first containing box
winning, and "Unknown" is returned when no box contains the point.  The
point (40.72, -74.0) lies in both the Manhattan and the Brooklyn box
and gets "Manhattan", the earlier entry. -/
theorem get_borough_total_first_match :
    (∀ lat lon : ℚ,
      get_borough lat lon ∈
          ["Manhattan", "Brooklyn", "Queens", "Bronx", "Staten Island", "Unknown"] ∧
        get_borough lat lon =
          ((borough_ranges.find? (inBounds lat lon)).map BoroughBox.name).getD "Unknown" ∧
        ((∀ b ∈ borough_ranges, inBounds lat lon b = false) →
          get_borough lat lon = "Unknown")) ∧
      (borough_ranges.filter (inBounds 40.72 (-74.0))).map BoroughBox.name =
        ["Manhattan", "Brooklyn"] ∧
      get_borough 40.72 (-74.0) = "Manhattan" := by
  refine ⟨fun lat lon => ⟨?_, get_borough_aux_eq_find lat lon borough_ranges,
    fun hall => ?_⟩, ?_, ?_⟩
  · rw [get_borough, get_borough_aux_eq_find]
    cases hf : borough_ranges.find? (inBounds lat lon) with
    | none => simp
    | some b =>
        have hb : b ∈ borough_ranges := List.mem_of_find?_eq_some hf
        have hn : b.name ∈ ["Manhattan", "Brooklyn", "Queens", "Bronx", "Staten Island"] := by
          fin_cases hb <;> decide
        show b.name ∈ ["Manhattan", "Brooklyn", "Queens", "Bronx", "Staten Island", "Unknown"]
        simp only [List.mem_cons] at hn ⊢
        tauto
  · rw [get_borough, get_borough_aux_eq_find,
      List.find?_eq_none.2 (fun b hb => by simp [hall b hb])]
    rfl
  · have h1 : inBounds 40.72 (-74.0) ⟨"Manhattan", 40.700, 40.882, -74.019, -73.907⟩ = true := by
      norm_num [inBounds]
    have h2 : inBounds 40.72 (-74.0) ⟨"Brooklyn", 40.570, 40.739, -74.041, -73.855⟩ = true := by
      norm_num [inBounds]
    have h3 : inBounds 40.72 (-74.0) ⟨"Queens", 40.541, 40.800, -73.962, -73.700⟩ = false := by
      norm_num [inBounds]
    have h4 : inBounds 40.72 (-74.0) ⟨"Bronx", 40.785, 40.910, -73.933, -73.765⟩ = false := by
      norm_num [inBounds]
    have h5 : inBounds 40.72 (-74.0) ⟨"Staten Island", 40.477, 40.648, -74.255, -74.051⟩ = false := by
      norm_num [inBounds]
    simp [borough_ranges, List.filter, h1, h2, h3, h4, h5]
  · rw [get_borough, borough_ranges, get_borough_aux]
    rw [if_pos (by norm_num [inBounds])]

/-- Witness for C6: a point outside every box gets "Unknown". -/
theorem get_borough_total_first_match_witness :
    get_borough 0 0 = "Unknown" :=
  (get_borough_total_first_match.1 0 0).2.2
    (fun b hb => by fin_cases hb <;> norm_num [inBounds])

/-! ## C7: temporal features -/

/-- Index lookup into the 7 weekday names always lands in the list. -/
lemma getD_mod7_mem (X : ℕ) : dayNames.getD (X % 7) "" ∈ dayNames := by
  have h : X % 7 < 7 := Nat.mod_lt _ (by norm_num)
  generalize hk : X % 7 = k at h
  interval_cases k <;> decide

/-- The weekday of any timestamp is one of the 7 names. -/
lemma day_name_mem (t : PTimestamp) : day_name t ∈ dayNames := by
  unfold day_name
  exact getD_mod7_mem _

/-- C7: a parsed timestamp maps to a weekday name (one of 7), an hour in
0–23, a month in 1–12 and a time-of-day bucket through the right-open
intervals [0,6)↦Night, [6,12)↦Morning, [12,18)↦Afternoon,
[18,24)↦Evening; the timestamp 2020-03-15 07:30 gives Sunday, hour 7,
Morning, month 3. -/
theorem temporal_features_spec :
    (∀ ts : PTimestamp, ValidTimestamp ts →
      day_name ts ∈ dayNames ∧ ts.hour ≤ 23 ∧ 1 ≤ ts.month ∧ ts.month ≤ 12 ∧
        (ts.hour < 6 → time_of_day ts.hour = some "Night") ∧
        (6 ≤ ts.hour → ts.hour < 12 → time_of_day ts.hour = some "Morning") ∧
        (12 ≤ ts.hour → ts.hour < 18 → time_of_day ts.hour = some "Afternoon") ∧
        (18 ≤ ts.hour → ts.hour < 24 → time_of_day ts.hour = some "Evening")) ∧
      day_name ⟨2020, 3, 15, 7, 30⟩ = "Sunday" ∧
      (⟨2020, 3, 15, 7, 30⟩ : PTimestamp).hour = 7 ∧
      time_of_day 7 = some "Morning" ∧
      (⟨2020, 3, 15, 7, 30⟩ : PTimestamp).month = 3 := by
  refine ⟨fun ts hv => ?_, by decide, rfl, by decide, rfl⟩
  obtain ⟨hy, hm1, hm2, hd1, hd2, hh, hmin⟩ := hv
  refine ⟨day_name_mem ts, hh, hm1, hm2, ?_, ?_, ?_, ?_⟩ <;>
    · intros
      unfold time_of_day
      split_ifs <;> first | rfl | omega

/-- Witness for C7: the scenario timestamp is valid and the theorem
evaluates on it. -/
theorem temporal_features_spec_witness :
    ValidTimestamp ⟨2020, 3, 15, 7, 30⟩ ∧
      day_name ⟨2020, 3, 15, 7, 30⟩ ∈ dayNames ∧
      time_of_day (⟨2020, 3, 15, 7, 30⟩ : PTimestamp).hour = some "Morning" :=
  ⟨by decide,
   (temporal_features_spec.1 ⟨2020, 3, 15, 7, 30⟩ (by decide)).1,
   (temporal_features_spec.1 ⟨2020, 3, 15, 7, 30⟩ (by decide)).2.2.2.2.2.1
     (by norm_num) (by norm_num)⟩

/-! ## C8: location grid and crash rate -/

/-- Evaluates `getD` through a `map`, inside the length. -/
lemma getD_map_of_lt {α β : Type} (f : α → β) (l : List α) (i : ℕ) (d : α) (d2 : β)
    (hi : i < l.length) : (l.map f).getD i d2 = f (l.getD i d) := by
  induction l generalizing i with
  | nil => simp at hi
  | cons a as ih =>
      cases i with
      | zero => rfl
      | succ n => simpa using ih n (by simpa using hi)

/-- C8: `location_grid` is the key built from latitude and longitude
each rounded to 3 decimals; the broadcast `crash_rate` column assigns
every row the arithmetic mean of `severity_score` over the rows sharing
its grid key, computed by one grouped pass over the whole dataset; rows
sharing a grid cell therefore carry the identical value. -/
theorem crash_rate_grid_mean :
    (∀ r : GeoRecord, location_grid r = (round3 r.latitude, round3 r.longitude)) ∧
      (∀ df : List GeoRecord,
        crash_rate_column df = df.map (fun r =>
          ((df.filter (fun x => location_grid x = location_grid r)).map
              (fun x => x.severity)).sum /
            ((df.filter (fun x => location_grid x = location_grid r)).length : ℚ))) ∧
      (∀ df : List GeoRecord, ∀ i j : ℕ, i < df.length → j < df.length →
        location_grid (df.getD i ⟨0, 0, 0⟩) = location_grid (df.getD j ⟨0, 0, 0⟩) →
        (crash_rate_column df).getD i 0 = (crash_rate_column df).getD j 0) := by
  refine ⟨fun r => rfl, fun df => ?_, fun df i j hi hj hij => ?_⟩
  · rw [crash_rate_column_eq]
    rfl
  · rw [crash_rate_column_eq,
      getD_map_of_lt (fun r => groupMean df (location_grid r)) df i ⟨0, 0, 0⟩ 0 hi,
      getD_map_of_lt (fun r => groupMean df (location_grid r)) df j ⟨0, 0, 0⟩ 0 hj,
      hij]

/-- Witness for C8: two rows whose coordinates round to the same grid
cell receive the same broadcast crash rate. -/
theorem crash_rate_grid_mean_witness :
    location_grid (([⟨40.7005, -73.95, 2⟩, ⟨40.7004, -73.95, 4⟩] :
          List GeoRecord).getD 0 ⟨0, 0, 0⟩) =
        location_grid (([⟨40.7005, -73.95, 2⟩, ⟨40.7004, -73.95, 4⟩] :
          List GeoRecord).getD 1 ⟨0, 0, 0⟩) ∧
      (crash_rate_column [⟨40.7005, -73.95, 2⟩, ⟨40.7004, -73.95, 4⟩]).getD 0 0 =
        (crash_rate_column [⟨40.7005, -73.95, 2⟩, ⟨40.7004, -73.95, 4⟩]).getD 1 0 := by
  have hg : location_grid (([⟨40.7005, -73.95, 2⟩, ⟨40.7004, -73.95, 4⟩] :
        List GeoRecord).getD 0 ⟨0, 0, 0⟩) =
      location_grid (([⟨40.7005, -73.95, 2⟩, ⟨40.7004, -73.95, 4⟩] :
        List GeoRecord).getD 1 ⟨0, 0, 0⟩) := by
    show location_grid ⟨40.7005, -73.95, 2⟩ = location_grid ⟨40.7004, -73.95, 4⟩
    norm_num [location_grid, round3, roundHalfEven, Int.even_iff]
  exact ⟨hg, crash_rate_grid_mean.2.2 [⟨40.7005, -73.95, 2⟩, ⟨40.7004, -73.95, 4⟩] 0 1
    (by norm_num) (by norm_num) hg⟩

/-! ## C9: feature alignment (corrected) -/

/-- A representative slice of the post-transform feature names the
dashboard reads from `models/feature_names.txt` (a numeric column
`num__<col>` and one-hot columns `cat__<col>_<value>`). -/
def alignFeatures : List String :=
  ["num__crash_rate", "num__latitude", "cat__borough_Manhattan",
   "cat__borough_Brooklyn", "cat__time_of_day_Morning"]

/-- C9 counterexample to idempotence: aligning the input row
`{borough: "Manhattan"}` against the one-hot group of `borough` sets
`cat__borough_Manhattan` to 1; aligning the already-aligned output
(its columns are the post-transform names `cat__borough_...`, its
values the stringified floats "1.0"/"0.0") zeroes every column,
because `create_aligned_input` looks the base column `borough` up and
the aligned row no longer has it.  So aligning already-aligned output
does not yield the same output. -/
theorem create_aligned_input_counterexample :
    create_aligned_input [("borough", "Manhattan")]
        ["cat__borough_Manhattan", "cat__borough_Brooklyn"] =
      some [("cat__borough_Manhattan", 1), ("cat__borough_Brooklyn", 0)] ∧
    create_aligned_input [("cat__borough_Manhattan", "1.0"), ("cat__borough_Brooklyn", "0.0")]
        ["cat__borough_Manhattan", "cat__borough_Brooklyn"] =
      some [("cat__borough_Manhattan", 0), ("cat__borough_Brooklyn", 0)] ∧
    ¬ (some [(("cat__borough_Manhattan" : String), (0 : ℚ)), ("cat__borough_Brooklyn", 0)] =
        some [(("cat__borough_Manhattan" : String), (1 : ℚ)), ("cat__borough_Brooklyn", 0)]) := by
  refine ⟨rfl, rfl, fun h => ?_⟩
  simp only [Option.some.injEq, List.cons.injEq, Prod.mk.injEq] at h
  exact zero_ne_one h.1.2

/-- C9 amended: against the ordered post-transform feature names, the
aligned vector is zero except that a numerical feature whose base
column is present (and parses) is copied in and a categorical feature
whose base column's value equals its one-hot value is set to 1 —
exactly one column per matching one-hot group, zero for groups with no
match; but aligning already-aligned output yields the all-zero vector,
not the same output (alignment is not idempotent). -/
theorem create_aligned_input_amended :
    ∀ (s : String) (q : ℚ) (v1 v2 v3 v4 v5 w : String),
      (parseFloat s = some q →
        create_aligned_input [("crash_rate", s), ("borough", "Manhattan")] alignFeatures =
          some [("num__crash_rate", q), ("num__latitude", 0), ("cat__borough_Manhattan", 1),
                ("cat__borough_Brooklyn", 0), ("cat__time_of_day_Morning", 0)]) ∧
      create_aligned_input
          [("num__crash_rate", v1), ("num__latitude", v2), ("cat__borough_Manhattan", v3),
           ("cat__borough_Brooklyn", v4), ("cat__time_of_day_Morning", v5)] alignFeatures =
        some (alignFeatures.map (fun f => (f, 0))) ∧
      create_aligned_input [("borough", w)]
          ["cat__borough_Manhattan", "cat__borough_Brooklyn"] =
        some [("cat__borough_Manhattan", if w = "Manhattan" then 1 else 0),
              ("cat__borough_Brooklyn", if w = "Brooklyn" then 1 else 0)] := by
  intro s q v1 v2 v3 v4 v5 w
  refine ⟨fun h => ?_, rfl, rfl⟩
  have e1 : alignedValue [("crash_rate", s), ("borough", "Manhattan")] "num__crash_rate"
      = parseFloat s := rfl
  unfold create_aligned_input alignFeatures
  simp only [List.mapM_cons, List.mapM_nil, e1, h]
  rfl

/-- Witness for C9 amended: the numeric copy evaluated at the parseable
input "0.5". -/
theorem create_aligned_input_amended_witness :
    ∃ q : ℚ,
      create_aligned_input [("crash_rate", "0.5"), ("borough", "Manhattan")] alignFeatures =
        some [("num__crash_rate", q), ("num__latitude", 0), ("cat__borough_Manhattan", 1),
              ("cat__borough_Brooklyn", 0), ("cat__time_of_day_Morning", 0)] :=
  ⟨_, (create_aligned_input_amended "0.5" _ "" "" "" "" "" "").1 rfl⟩

end Collision
